import Mathlib

/-!
Shallow embedding of the garment color-variation workflow of this repository:
the component `src/components/GarmentDetailModal.tsx` and the service
`src/services/geminiService.ts`.

External effects (the Gemini requests and the URL-to-file materialization)
are modelled by outcome parameters: every asynchronous call the component
awaits is represented by the value its promise resolves or rejects with, so
each run of an operation is a pure function of the state and those outcomes.
-/

/-- Modelled from the spec: the garment identity type `WardrobeItem` imported
from `../types` (that file is not under `src/`): an abstract id, a display name,
an image location, descriptive text and a brand. -/
structure WardrobeItem where
  id : String
  name : String
  url : String
  description : String
  brand : String
  deriving DecidableEq, Repr

/-- An owned binary payload (a JS `File`); the bytes are abstracted to a tag,
since the component never inspects them. -/
structure FileData where
  tag : String
  deriving DecidableEq, Repr

/-- The `status` field of a `Variation` (GarmentDetailModal.tsx, line 45). -/
inductive VariationStatus where
  | original
  | done
  | generating
  | error
  deriving DecidableEq, Repr

/-- The `Variation` record (GarmentDetailModal.tsx, lines 41-46).  The `file`
field is optional in the source; an appended entry is created without it. -/
structure Variation where
  hex : String
  url : String
  file : Option FileData
  status : VariationStatus
  deriving DecidableEq, Repr

/-- The controller state of `GarmentDetailModal` (lines 57-60): the variant
list, the selected index, the batch-in-progress flag and the last batch-level
message shown in the message area. -/
structure ModalState where
  variations : List Variation
  selectedVariationIndex : Nat
  isGenerating : Bool
  error : Option String
  deriving DecidableEq, Repr

/-- Result of trimming and JSON-parsing `response.text` in `getHarmonicColors`
(geminiService.ts, lines 130-136): either that step throws (`unparsable`, for
a missing text or invalid JSON), or the parsed object lacks a `colors` array
(`noColorsArray`), or it carries the string array `cs`. -/
inductive ParsedResponse where
  | unparsable
  | noColorsArray
  | colors (cs : List String)
  deriving DecidableEq, Repr

/-- Outcome of the suggestion request in `getHarmonicColors`.  The awaits of
`fileToPart` and `ai.models.generateContent` (geminiService.ts, lines 110-128)
stand outside the try/catch, so a rejection there is `transportFailure`;
`response p` means a response object arrived and its text parsed as `p`. -/
inductive SuggestOutcome where
  | transportFailure
  | response (p : ParsedResponse)
  deriving DecidableEq, Repr

/-- Outcome of one iteration of the recolor loop (GarmentDetailModal.tsx,
lines 95-109): `recolorGarment` rejects, or it resolves with a URL but
`urlToFile` rejects, or both resolve. -/
inductive ColorOutcome where
  | recolorFailure
  | fileFailure (url : String)
  | success (url : String) (file : FileData)
  deriving DecidableEq, Repr

/-- Whether the iteration outcome lands in the per-color catch block. -/
def ColorOutcome.isFailure : ColorOutcome → Bool
  | .success _ _ => false
  | .recolorFailure => true
  | .fileFailure _ => true

/-- Outcome of the `urlToFile` await inside `initialize`
(GarmentDetailModal.tsx, lines 65-75). -/
inductive LoadOutcome where
  | success (file : FileData)
  | failure
  deriving DecidableEq, Repr

/-- The fallback palette of `getHarmonicColors` (geminiService.ts, line 140). -/
def fallbackColors : List String := ["#A0D2DB", "#7A6E9E", "#E8A0BF", "#B4E1D2"]

/-- `getHarmonicColors` (geminiService.ts, lines 109-142).  The try/catch
begins only at line 130, after the request has been awaited: a transport
rejection propagates as an error, while a response whose text fails to parse,
lacks a `colors` array, or carries an empty array yields `fallbackColors`;
a non-empty parsed array is returned as is. -/
def getHarmonicColors : SuggestOutcome → Except Unit (List String)
  | .transportFailure => Except.error ()
  | .response .unparsable => Except.ok fallbackColors
  | .response .noColorsArray => Except.ok fallbackColors
  | .response (.colors cs) =>
      if cs.length > 0 then Except.ok cs else Except.ok fallbackColors

/-- The effect body named `initialize` in the source (GarmentDetailModal.tsx,
lines 65-75; that name is a Lean keyword, hence `initModal` here), run
whenever a non-null item is opened: on success the variant list is replaced by
the single original variant, the selection is reset and the error cleared; on
failure only the error message is set. -/
def initModal (item : WardrobeItem) (o : LoadOutcome) (s : ModalState) : ModalState :=
  match o with
  | .success f =>
      { s with
        variations := [{ hex := "original", url := item.url, file := some f,
                         status := VariationStatus.original }],
        selectedVariationIndex := 0,
        error := none }
  | .failure => { s with error := some "Could not load original garment image." }

/-- The element transform of the success update (GarmentDetailModal.tsx,
lines 100-104): an entry matching the hex with status generating becomes done
with the new url and file; every other entry is untouched. -/
def successUpdate (hex url : String) (f : FileData) (v : Variation) : Variation :=
  if v.hex = hex ∧ v.status = VariationStatus.generating then
    { v with url := url, file := some f, status := VariationStatus.done }
  else v

/-- The element transform of the failure update (GarmentDetailModal.tsx,
line 107): every entry matching the hex — with no status check — becomes an
error entry; other entries are untouched. -/
def failureUpdate (hex : String) (v : Variation) : Variation :=
  if v.hex = hex then { v with status := VariationStatus.error } else v

/-- The per-variant transform applied by one iteration of the recolor loop,
chosen by the iteration outcome. -/
def colorUpdate (hex : String) (o : ColorOutcome) : Variation → Variation :=
  match o with
  | .success url f => successUpdate hex url f
  | .recolorFailure => failureUpdate hex
  | .fileFailure _ => failureUpdate hex

/-- One iteration of the recolor loop: the corresponding `setVariations` call
maps the transform over the current list. -/
def processColor (s : ModalState) (hex : String) (o : ColorOutcome) : ModalState :=
  { s with variations := (s.variations).map (colorUpdate hex o) }

/-- The recolor loop (GarmentDetailModal.tsx, lines 95-109): colors are
processed strictly sequentially; `env i` is the outcome of iteration `i`. -/
def runColorLoop (env : Nat → ColorOutcome) : Nat → List String → ModalState → ModalState
  | _, [], s => s
  | i, hex :: rest, s => runColorLoop env (i + 1) rest (processColor s hex (env i))

/-- The variant appended for a suggested color (GarmentDetailModal.tsx,
line 92): `{ hex, url: "", status: generating }`, with no file. -/
def appendedVariation (hex : String) : Variation :=
  { hex := hex, url := "", file := none, status := VariationStatus.generating }

/-- `variations[0].file` guarded by the length test, as in the guard at
GarmentDetailModal.tsx, line 81: `none` when the list is empty or the first
variant has no file. -/
def firstFile (s : ModalState) : Option FileData :=
  match s.variations with
  | [] => none
  | v :: _ => v.file

/-- `handleGenerateVariations` (GarmentDetailModal.tsx, lines 80-115).  The
guard returns unchanged when the item is null, the list is empty or the first
variant has no file.  Otherwise the flag is set and the error cleared; a
rejection of `getHarmonicColors` reaches the outer catch, which records the
batch-level message (the finally clause clears the flag); on a color list the
generating variants are appended and the loop runs, after which the finally
clause clears the flag. -/
def handleGenerateVariations (item : Option WardrobeItem) (sug : SuggestOutcome)
    (env : Nat → ColorOutcome) (s : ModalState) : ModalState :=
  match item, firstFile s with
  | none, _ => s
  | some _, none => s
  | some _, some _ =>
      let s1 : ModalState := { s with isGenerating := true, error := none }
      match getHarmonicColors sug with
      | Except.error _ =>
          { s1 with error := some "Failed to get color suggestions.", isGenerating := false }
      | Except.ok colors =>
          let s2 : ModalState :=
            { s1 with variations := s1.variations ++ colors.map appendedVariation }
          { runColorLoop env 0 colors s2 with isGenerating := false }

/-- The user-level generate action: the only caller of
`handleGenerateVariations` is the button at GarmentDetailModal.tsx, line 202,
whose `disabled` attribute (line 203) is `isLoading || isGenerating`; a click
on a disabled button does not fire, so the handler runs only when neither flag
is set. -/
def clickGenerateVariations (item : Option WardrobeItem) (sug : SuggestOutcome)
    (env : Nat → ColorOutcome) (isLoading : Bool) (s : ModalState) : ModalState :=
  if isLoading || s.isGenerating then s
  else handleGenerateVariations item sug env s

/-- `handleApply` (GarmentDetailModal.tsx, lines 117-128), as the payload
handed to the `onApply` callback: `none` when the callback is not invoked.
The component state is never modified by this handler. -/
def handleApply (item : Option WardrobeItem) (s : ModalState) :
    Option (FileData × WardrobeItem) :=
  match s.variations[s.selectedVariationIndex]? with
  | none => none
  | some sv =>
      match item, sv.file with
      | some it, some f =>
          if sv.status = VariationStatus.done ∨ sv.status = VariationStatus.original then
            some (f,
              { it with
                id := it.id ++ "-" ++ sv.hex,
                name := if sv.status = VariationStatus.original then it.name
                        else it.name ++ " (" ++ sv.hex ++ ")",
                url := sv.url })
          else none
      | _, _ => none

/-- The composite transform the whole recolor loop applies to one variant;
`runColorLoop_variations` below shows the loop is the pointwise map of it. -/
def loopUpdate (env : Nat → ColorOutcome) : Nat → List String → Variation → Variation
  | _, [], v => v
  | i, hex :: rest, v => loopUpdate env (i + 1) rest (colorUpdate hex (env i) v)

theorem colorUpdate_hex (hex : String) (o : ColorOutcome) (v : Variation) :
    (colorUpdate hex o v).hex = v.hex := by
  cases o <;> simp only [colorUpdate, successUpdate, failureUpdate] <;> split <;> rfl

theorem colorUpdate_of_generating (hex : String) (o : ColorOutcome) (v : Variation)
    (h : (colorUpdate hex o v).status = VariationStatus.generating) :
    colorUpdate hex o v = v := by
  cases o with
  | success url f =>
      by_cases hc : v.hex = hex ∧ v.status = VariationStatus.generating
      · simp [colorUpdate, successUpdate, hc] at h
      · simp [colorUpdate, successUpdate, hc]
  | recolorFailure =>
      by_cases hc : v.hex = hex
      · simp [colorUpdate, failureUpdate, hc] at h
      · simp [colorUpdate, failureUpdate, hc]
  | fileFailure url =>
      by_cases hc : v.hex = hex
      · simp [colorUpdate, failureUpdate, hc] at h
      · simp [colorUpdate, failureUpdate, hc]

theorem colorUpdate_status (hex : String) (o : ColorOutcome) (v : Variation) :
    (colorUpdate hex o v).status = v.status ∨
      (colorUpdate hex o v).status = VariationStatus.done ∨
      (colorUpdate hex o v).status = VariationStatus.error := by
  cases o with
  | success url f =>
      by_cases hc : v.hex = hex ∧ v.status = VariationStatus.generating
      · right; left; simp [colorUpdate, successUpdate, hc]
      · left; simp [colorUpdate, successUpdate, hc]
  | recolorFailure =>
      by_cases hc : v.hex = hex
      · right; right; simp [colorUpdate, failureUpdate, hc]
      · left; simp [colorUpdate, failureUpdate, hc]
  | fileFailure url =>
      by_cases hc : v.hex = hex
      · right; right; simp [colorUpdate, failureUpdate, hc]
      · left; simp [colorUpdate, failureUpdate, hc]

theorem colorUpdate_kill (hex : String) (o : ColorOutcome) (v : Variation)
    (hhex : v.hex = hex) :
    (colorUpdate hex o v).status ≠ VariationStatus.generating := by
  cases o with
  | success url f =>
      by_cases hg : v.status = VariationStatus.generating
      · simp [colorUpdate, successUpdate, hhex, hg]
      · simp [colorUpdate, successUpdate, hhex, hg]
  | recolorFailure => simp [colorUpdate, failureUpdate, hhex]
  | fileFailure url => simp [colorUpdate, failureUpdate, hhex]

theorem colorUpdate_ne (hex : String) (o : ColorOutcome) (v : Variation)
    (hhex : v.hex ≠ hex) : colorUpdate hex o v = v := by
  cases o <;> simp [colorUpdate, successUpdate, failureUpdate, hhex]

theorem colorUpdate_error (hex : String) (o : ColorOutcome) (v : Variation)
    (hst : v.status = VariationStatus.error) :
    (colorUpdate hex o v).status = VariationStatus.error := by
  cases o with
  | success url f => simp [colorUpdate, successUpdate, hst]
  | recolorFailure =>
      by_cases hc : v.hex = hex <;> simp [colorUpdate, failureUpdate, hc, hst]
  | fileFailure url =>
      by_cases hc : v.hex = hex <;> simp [colorUpdate, failureUpdate, hc, hst]

theorem colorUpdate_fail_error (hex : String) (o : ColorOutcome) (v : Variation)
    (hhex : v.hex = hex) (hf : o.isFailure = true) :
    (colorUpdate hex o v).status = VariationStatus.error := by
  cases o with
  | success url f => simp [ColorOutcome.isFailure] at hf
  | recolorFailure => simp [colorUpdate, failureUpdate, hhex]
  | fileFailure url => simp [colorUpdate, failureUpdate, hhex]

theorem runColorLoop_variations (env : Nat → ColorOutcome) (i : Nat) (colors : List String)
    (s : ModalState) :
    (runColorLoop env i colors s).variations = s.variations.map (loopUpdate env i colors) := by
  induction colors generalizing i s with
  | nil =>
      show s.variations = s.variations.map (loopUpdate env i [])
      rw [show loopUpdate env i [] = id from funext fun v => rfl, List.map_id]
  | cons hex rest ih =>
      show (runColorLoop env (i + 1) rest (processColor s hex (env i))).variations = _
      rw [ih]
      show (s.variations.map (colorUpdate hex (env i))).map (loopUpdate env (i + 1) rest) = _
      rw [List.map_map]
      rfl

theorem runColorLoop_isGenerating (env : Nat → ColorOutcome) (i : Nat) (colors : List String)
    (s : ModalState) :
    (runColorLoop env i colors s).isGenerating = s.isGenerating := by
  induction colors generalizing i s with
  | nil => rfl
  | cons hex rest ih => simp only [runColorLoop]; rw [ih]; rfl

theorem runColorLoop_error (env : Nat → ColorOutcome) (i : Nat) (colors : List String)
    (s : ModalState) :
    (runColorLoop env i colors s).error = s.error := by
  induction colors generalizing i s with
  | nil => rfl
  | cons hex rest ih => simp only [runColorLoop]; rw [ih]; rfl

theorem loopUpdate_hex (env : Nat → ColorOutcome) (i : Nat) (colors : List String)
    (v : Variation) : (loopUpdate env i colors v).hex = v.hex := by
  induction colors generalizing i v with
  | nil => rfl
  | cons hex rest ih => simp only [loopUpdate]; rw [ih, colorUpdate_hex]

theorem loopUpdate_of_generating (env : Nat → ColorOutcome) (i : Nat) (colors : List String)
    (v : Variation) (h : (loopUpdate env i colors v).status = VariationStatus.generating) :
    loopUpdate env i colors v = v := by
  induction colors generalizing i v with
  | nil => rfl
  | cons hex rest ih =>
      simp only [loopUpdate] at h ⊢
      have h2 := ih (i + 1) (colorUpdate hex (env i) v) h
      rw [h2] at h ⊢
      exact colorUpdate_of_generating hex (env i) v h

theorem loopUpdate_status (env : Nat → ColorOutcome) (i : Nat) (colors : List String)
    (v : Variation) :
    (loopUpdate env i colors v).status = v.status ∨
      (loopUpdate env i colors v).status = VariationStatus.done ∨
      (loopUpdate env i colors v).status = VariationStatus.error := by
  induction colors generalizing i v with
  | nil => left; rfl
  | cons hex rest ih =>
      simp only [loopUpdate]
      rcases ih (i + 1) (colorUpdate hex (env i) v) with h | h | h
      · rcases colorUpdate_status hex (env i) v with h2 | h2 | h2
        · left; rw [h, h2]
        · right; left; rw [h, h2]
        · right; right; rw [h, h2]
      · right; left; exact h
      · right; right; exact h

theorem loopUpdate_error (env : Nat → ColorOutcome) (i : Nat) (colors : List String)
    (v : Variation) (hst : v.status = VariationStatus.error) :
    (loopUpdate env i colors v).status = VariationStatus.error := by
  induction colors generalizing i v with
  | nil => exact hst
  | cons hex rest ih =>
      simp only [loopUpdate]
      exact ih (i + 1) (colorUpdate hex (env i) v) (colorUpdate_error hex (env i) v hst)

theorem loopUpdate_kill (env : Nat → ColorOutcome) (colors : List String) (c : String)
    (hmem : c ∈ colors) :
    ∀ (i : Nat) (v : Variation), v.hex = c →
      (loopUpdate env i colors v).status ≠ VariationStatus.generating := by
  induction colors with
  | nil => cases hmem
  | cons hex rest ih =>
      intro i v hhex
      simp only [loopUpdate]
      rcases List.mem_cons.mp hmem with heq | hmem2
      · intro hgen
        have h2 := loopUpdate_of_generating env (i + 1) rest (colorUpdate hex (env i) v) hgen
        rw [h2] at hgen
        exact colorUpdate_kill hex (env i) v (by rw [hhex, heq]) hgen
      · exact ih hmem2 (i + 1) (colorUpdate hex (env i) v) (by rw [colorUpdate_hex, hhex])

theorem loopUpdate_fail (env : Nat → ColorOutcome) (colors : List String) (c : String) :
    ∀ (k i : Nat) (v : Variation), colors[k]? = some c → (env (i + k)).isFailure = true →
      v.hex = c → (loopUpdate env i colors v).status = VariationStatus.error := by
  induction colors with
  | nil => intro k i v hk _ _; simp at hk
  | cons hex rest ih =>
      intro k i v hk hf hhex
      simp only [loopUpdate]
      cases k with
      | zero =>
          have hc : hex = c := by simpa using hk
          exact loopUpdate_error env (i + 1) rest _
            (colorUpdate_fail_error hex (env i) v (hhex.trans hc.symm) (by simpa using hf))
      | succ k2 =>
          have hk2 : rest[k2]? = some c := by simpa using hk
          have hf2 : (env ((i + 1) + k2)).isFailure = true := by
            have he : (i + 1) + k2 = i + (k2 + 1) := by omega
            rw [he]; exact hf
          exact ih k2 (i + 1) (colorUpdate hex (env i) v) hk2 hf2
            (by rw [colorUpdate_hex]; exact hhex)

theorem loopUpdate_notmem (env : Nat → ColorOutcome) (colors : List String) :
    ∀ (i : Nat) (v : Variation), v.hex ∉ colors → loopUpdate env i colors v = v := by
  induction colors with
  | nil => intro i v _; rfl
  | cons hex rest ih =>
      intro i v hnm
      simp only [loopUpdate]
      have h1 : v.hex ≠ hex := fun he => hnm (by rw [he]; exact List.mem_cons_self _ _)
      rw [colorUpdate_ne hex (env i) v h1]
      exact ih (i + 1) v (fun hm => hnm (List.mem_cons_of_mem _ hm))

theorem handleGenerateVariations_ok (it : WardrobeItem) (sug : SuggestOutcome)
    (env : Nat → ColorOutcome) (s : ModalState) (f : FileData) (colors : List String)
    (hfile : firstFile s = some f) (hcolors : getHarmonicColors sug = Except.ok colors) :
    handleGenerateVariations (some it) sug env s =
      { runColorLoop env 0 colors
          { s with isGenerating := true, error := none,
                   variations := s.variations ++ colors.map appendedVariation }
        with isGenerating := false } := by
  simp only [handleGenerateVariations, hfile, hcolors]

theorem handleGenerateVariations_err (it : WardrobeItem) (sug : SuggestOutcome)
    (env : Nat → ColorOutcome) (s : ModalState) (f : FileData)
    (hfile : firstFile s = some f) (hcolors : getHarmonicColors sug = Except.error ()) :
    handleGenerateVariations (some it) sug env s =
      { s with error := some "Failed to get color suggestions.", isGenerating := false } := by
  simp only [handleGenerateVariations, hfile, hcolors]

theorem hgv_variations (it : WardrobeItem) (sug : SuggestOutcome)
    (env : Nat → ColorOutcome) (s : ModalState) (f : FileData) (colors : List String)
    (hfile : firstFile s = some f) (hcolors : getHarmonicColors sug = Except.ok colors) :
    (handleGenerateVariations (some it) sug env s).variations =
      (s.variations ++ colors.map appendedVariation).map (loopUpdate env 0 colors) := by
  rw [handleGenerateVariations_ok it sug env s f colors hfile hcolors]
  show (runColorLoop env 0 colors _).variations = _
  rw [runColorLoop_variations]

theorem hgv_isGenerating (it : WardrobeItem) (sug : SuggestOutcome)
    (env : Nat → ColorOutcome) (s : ModalState) (f : FileData) (colors : List String)
    (hfile : firstFile s = some f) (hcolors : getHarmonicColors sug = Except.ok colors) :
    (handleGenerateVariations (some it) sug env s).isGenerating = false := by
  rw [handleGenerateVariations_ok it sug env s f colors hfile hcolors]

theorem hgv_appended (it : WardrobeItem) (sug : SuggestOutcome)
    (env : Nat → ColorOutcome) (s : ModalState) (f : FileData) (colors : List String)
    (hfile : firstFile s = some f) (hcolors : getHarmonicColors sug = Except.ok colors) :
    ∀ (k : Nat) (c : String), colors[k]? = some c →
      ∃ w, (handleGenerateVariations (some it) sug env s).variations[s.variations.length + k]?
              = some w ∧
        w.hex = c ∧ (w.status = VariationStatus.done ∨ w.status = VariationStatus.error) := by
  intro k c hk
  have hv := hgv_variations it sug env s f colors hfile hcolors
  have hbase : (s.variations ++ colors.map appendedVariation)[s.variations.length + k]?
      = some (appendedVariation c) := by
    rw [List.getElem?_append_right (by omega)]
    rw [Nat.add_sub_cancel_left s.variations.length k]
    rw [List.getElem?_map, hk]
    rfl
  refine ⟨loopUpdate env 0 colors (appendedVariation c), ?_, ?_, ?_⟩
  · rw [hv, List.getElem?_map, hbase]
    rfl
  · rw [loopUpdate_hex]
    rfl
  · have hne : (loopUpdate env 0 colors (appendedVariation c)).status
        ≠ VariationStatus.generating :=
      loopUpdate_kill env colors c (List.getElem?_mem hk) 0 (appendedVariation c) rfl
    rcases loopUpdate_status env 0 colors (appendedVariation c) with h | h | h
    · exact absurd h hne
    · left; exact h
    · right; exact h

/-- A sample garment used by the concrete instances below. -/
def wIt : WardrobeItem :=
  { id := "g1", name := "Shirt", url := "u0", description := "d", brand := "b" }

/-- A sample materialized original file. -/
def wF : FileData := { tag := "orig.png" }

/-- A freshly opened modal state: one original variant holding the file. -/
def wS : ModalState :=
  { variations := [{ hex := "original", url := "u0", file := some wF,
                     status := VariationStatus.original }],
    selectedVariationIndex := 0, isGenerating := false, error := none }

/-- A sample suggestion outcome: a well-formed two-color response. -/
def wSug : SuggestOutcome :=
  SuggestOutcome.response (ParsedResponse.colors ["#111111", "#222222"])

/-- A sample recolor environment: the first color succeeds, the rest fail. -/
def wEnv : Nat → ColorOutcome := fun i =>
  if i = 0 then ColorOutcome.success "u1" { tag := "v1.png" } else ColorOutcome.recolorFailure

/-- A recolor environment in which every iteration fails. -/
def envFail : Nat → ColorOutcome := fun _ => ColorOutcome.recolorFailure

/-- Claim C1: when the guard passes and the suggestion call yields a batch of
colors, the completed `handleGenerateVariations` run has appended exactly one
variant per color after all pre-existing variants, in the returned order (the
hex layout of the final list is the old layout followed by the colors), every
appended variant ends in status done or error — never generating — and the
batch-in-progress flag is back to false. -/
theorem generateVariations_C1 (it : WardrobeItem) (sug : SuggestOutcome)
    (env : Nat → ColorOutcome) (s : ModalState) (f : FileData) (colors : List String)
    (hfile : firstFile s = some f) (hcolors : getHarmonicColors sug = Except.ok colors) :
    (handleGenerateVariations (some it) sug env s).variations.length
        = s.variations.length + colors.length ∧
    (∀ j : Nat,
      ((handleGenerateVariations (some it) sug env s).variations[j]?).map Variation.hex
        = ((s.variations ++ colors.map appendedVariation)[j]?).map Variation.hex) ∧
    (∀ (k : Nat) (c : String), colors[k]? = some c →
      ∃ w, (handleGenerateVariations (some it) sug env s).variations[s.variations.length + k]?
              = some w ∧
        w.hex = c ∧ (w.status = VariationStatus.done ∨ w.status = VariationStatus.error)) ∧
    (handleGenerateVariations (some it) sug env s).isGenerating = false := by
  have hv := hgv_variations it sug env s f colors hfile hcolors
  refine ⟨?_, ?_, hgv_appended it sug env s f colors hfile hcolors,
    hgv_isGenerating it sug env s f colors hfile hcolors⟩
  · rw [hv, List.length_map, List.length_append, List.length_map]
  · intro j
    rw [hv, List.getElem?_map]
    cases hj : (s.variations ++ colors.map appendedVariation)[j]? with
    | none => rfl
    | some v => simp [loopUpdate_hex]

/-- Witness for C1: a concrete two-color batch on a fresh state, with one
success and one failure. -/
theorem generateVariations_C1_witness :
    firstFile wS = some wF ∧
    getHarmonicColors wSug = Except.ok ["#111111", "#222222"] ∧
    ((handleGenerateVariations (some wIt) wSug wEnv wS).variations.length
        = wS.variations.length + (["#111111", "#222222"] : List String).length ∧
     (∀ j : Nat,
       ((handleGenerateVariations (some wIt) wSug wEnv wS).variations[j]?).map Variation.hex
         = ((wS.variations
              ++ (["#111111", "#222222"] : List String).map appendedVariation)[j]?).map
             Variation.hex) ∧
     (∀ (k : Nat) (c : String), (["#111111", "#222222"] : List String)[k]? = some c →
       ∃ w, (handleGenerateVariations
               (some wIt) wSug wEnv wS).variations[wS.variations.length + k]? = some w ∧
         w.hex = c ∧ (w.status = VariationStatus.done ∨ w.status = VariationStatus.error)) ∧
     (handleGenerateVariations (some wIt) wSug wEnv wS).isGenerating = false) :=
  ⟨rfl, rfl, generateVariations_C1 wIt wSug wEnv wS wF ["#111111", "#222222"] rfl rfl⟩

/-- Counterexample to claim C2 as stated: a transport failure of the
suggestion request (the awaits at geminiService.ts lines 110-128 stand outside
the try/catch) is not converted to the fallback palette but propagates, and
`handleGenerateVariations` then does set the whole-batch error message. -/
theorem getHarmonicColors_C2_counterexample :
    getHarmonicColors SuggestOutcome.transportFailure = Except.error () ∧
    getHarmonicColors SuggestOutcome.transportFailure ≠ Except.ok fallbackColors ∧
    (handleGenerateVariations (some wIt) SuggestOutcome.transportFailure envFail wS).error
      = some "Failed to get color suggestions." := by
  refine ⟨rfl, ?_, rfl⟩
  intro h
  exact Except.noConfusion h

/-- Claim C2 as amended: `getHarmonicColors` returns the fixed 4-color
fallback whenever a response is received but is unparsable, lacks a colors
array, or carries an empty array — so it never fails outward on a malformed
response — but a transport failure (rejection of the request itself)
propagates as an error, in which case `GenerateVariations` records the
whole-batch error message, leaves the variant list unchanged, and clears the
in-progress flag. -/
theorem getHarmonicColors_C2_amended (it : WardrobeItem) (env : Nat → ColorOutcome)
    (s : ModalState) (f : FileData) (cs : List String)
    (hfile : firstFile s = some f) :
    getHarmonicColors (SuggestOutcome.response ParsedResponse.unparsable)
      = Except.ok fallbackColors ∧
    getHarmonicColors (SuggestOutcome.response ParsedResponse.noColorsArray)
      = Except.ok fallbackColors ∧
    (cs = [] → getHarmonicColors (SuggestOutcome.response (ParsedResponse.colors cs))
      = Except.ok fallbackColors) ∧
    getHarmonicColors SuggestOutcome.transportFailure = Except.error () ∧
    handleGenerateVariations (some it) SuggestOutcome.transportFailure env s =
      { s with error := some "Failed to get color suggestions.", isGenerating := false } := by
  refine ⟨rfl, rfl, ?_, rfl, ?_⟩
  · intro h
    subst h
    rfl
  · exact handleGenerateVariations_err it SuggestOutcome.transportFailure env s f hfile rfl

/-- Witness for the amended C2 at a concrete state. -/
theorem getHarmonicColors_C2_witness :
    firstFile wS = some wF ∧
    (getHarmonicColors (SuggestOutcome.response ParsedResponse.unparsable)
       = Except.ok fallbackColors ∧
     getHarmonicColors (SuggestOutcome.response ParsedResponse.noColorsArray)
       = Except.ok fallbackColors ∧
     (([] : List String) = [] →
       getHarmonicColors (SuggestOutcome.response (ParsedResponse.colors []))
         = Except.ok fallbackColors) ∧
     getHarmonicColors SuggestOutcome.transportFailure = Except.error () ∧
     handleGenerateVariations (some wIt) SuggestOutcome.transportFailure envFail wS =
       { wS with error := some "Failed to get color suggestions.", isGenerating := false }) :=
  ⟨rfl, getHarmonicColors_C2_amended wIt envFail wS wF [] rfl⟩

/-- A state holding, besides the original, a finished done variant for the
hex "#111111" — as left behind by an earlier successful batch. -/
def c3S : ModalState :=
  { variations := [{ hex := "original", url := "u0", file := some wF,
                     status := VariationStatus.original },
                   { hex := "#111111", url := "u1", file := some { tag := "v1.png" },
                     status := VariationStatus.done }],
    selectedVariationIndex := 0, isGenerating := false, error := none }

/-- Counterexample to claim C3 as stated: when a batch containing "#111111"
fails on that color, the update matches by hex alone, so the pre-existing done
variant at index 1 — a variant other than the one appended for the batch —
also has its status changed to error. -/
theorem generateVariations_C3_counterexample :
    (c3S.variations[1]?).map Variation.status = some VariationStatus.done ∧
    (((handleGenerateVariations (some wIt)
        (SuggestOutcome.response (ParsedResponse.colors ["#111111"]))
        envFail c3S).variations[1]?).map Variation.status
      = some VariationStatus.error) := by
  decide

/-- Claim C3 as amended: if the recolor call (or materialization) fails at
iteration `k` for color `c`, then every variant whose colorKey is `c` —
including the variant appended for the batch — ends in status error (so a
same-colorKey variant that was already done is reset to error as well, which
is the part the original claim got wrong); variants whose colorKey is not in
the batch are completely unchanged; the remaining colors are still processed
(every appended variant ends done or error); and the batch terminates with
the in-progress flag false. -/
theorem generateVariations_C3_amended (it : WardrobeItem) (sug : SuggestOutcome)
    (env : Nat → ColorOutcome) (s : ModalState) (f : FileData) (colors : List String)
    (k : Nat) (c : String)
    (hfile : firstFile s = some f) (hcolors : getHarmonicColors sug = Except.ok colors)
    (hk : colors[k]? = some c) (hfail : (env k).isFailure = true) :
    (∀ (j : Nat) (w : Variation),
        (handleGenerateVariations (some it) sug env s).variations[j]? = some w →
        w.hex = c → w.status = VariationStatus.error) ∧
    (∀ (j : Nat) (v : Variation), s.variations[j]? = some v → v.hex ∉ colors →
        (handleGenerateVariations (some it) sug env s).variations[j]? = some v) ∧
    (∀ (k2 : Nat) (c2 : String), colors[k2]? = some c2 →
        ∃ w, (handleGenerateVariations
                (some it) sug env s).variations[s.variations.length + k2]? = some w ∧
          w.hex = c2 ∧ (w.status = VariationStatus.done ∨ w.status = VariationStatus.error)) ∧
    (handleGenerateVariations (some it) sug env s).isGenerating = false := by
  have hv := hgv_variations it sug env s f colors hfile hcolors
  refine ⟨?_, ?_, hgv_appended it sug env s f colors hfile hcolors,
    hgv_isGenerating it sug env s f colors hfile hcolors⟩
  · intro j w hw hhex
    rw [hv, List.getElem?_map] at hw
    cases hb : (s.variations ++ colors.map appendedVariation)[j]? with
    | none => rw [hb] at hw; cases hw
    | some v =>
        rw [hb] at hw
        have hwv : loopUpdate env 0 colors v = w := by
          simpa using hw
        have hvhex : v.hex = c := by
          rw [← hwv] at hhex
          rw [loopUpdate_hex] at hhex
          exact hhex
        rw [← hwv]
        exact loopUpdate_fail env colors c k 0 v hk (by simpa using hfail) hvhex
  · intro j v hjv hnm
    have hj : j < s.variations.length := (List.getElem?_eq_some.mp hjv).1
    rw [hv, List.getElem?_map, List.getElem?_append_left hj, hjv]
    exact congrArg some (loopUpdate_notmem env colors 0 v hnm)

/-- Witness for the amended C3: a one-color batch failing at iteration 0. -/
theorem generateVariations_C3_witness :
    firstFile wS = some wF ∧
    getHarmonicColors (SuggestOutcome.response (ParsedResponse.colors ["#111111"]))
      = Except.ok ["#111111"] ∧
    (["#111111"] : List String)[0]? = some "#111111" ∧
    (envFail 0).isFailure = true ∧
    ((∀ (j : Nat) (w : Variation),
        (handleGenerateVariations (some wIt)
          (SuggestOutcome.response (ParsedResponse.colors ["#111111"]))
          envFail wS).variations[j]? = some w →
        w.hex = "#111111" → w.status = VariationStatus.error) ∧
     (∀ (j : Nat) (v : Variation), wS.variations[j]? = some v →
        v.hex ∉ (["#111111"] : List String) →
        (handleGenerateVariations (some wIt)
          (SuggestOutcome.response (ParsedResponse.colors ["#111111"]))
          envFail wS).variations[j]? = some v) ∧
     (∀ (k2 : Nat) (c2 : String), (["#111111"] : List String)[k2]? = some c2 →
        ∃ w, (handleGenerateVariations (some wIt)
                (SuggestOutcome.response (ParsedResponse.colors ["#111111"]))
                envFail wS).variations[wS.variations.length + k2]? = some w ∧
          w.hex = c2 ∧ (w.status = VariationStatus.done ∨ w.status = VariationStatus.error)) ∧
     (handleGenerateVariations (some wIt)
        (SuggestOutcome.response (ParsedResponse.colors ["#111111"]))
        envFail wS).isGenerating = false) :=
  ⟨rfl, rfl, rfl, rfl,
    generateVariations_C3_amended wIt
      (SuggestOutcome.response (ParsedResponse.colors ["#111111"]))
      envFail wS wF ["#111111"] 0 "#111111" rfl rfl rfl rfl⟩

/-- Claim C4: the user-level generate action is a no-op — the state is
returned unchanged, for every possible environment, so no request outcome is
even consulted — whenever the variant list is empty, the first variant lacks a
materialized file, or a batch is already in progress (the last case is
enforced by the disabled attribute of the generate button, the only caller of
the handler). -/
theorem clickGenerate_C4 (item : Option WardrobeItem) (sug : SuggestOutcome)
    (env : Nat → ColorOutcome) (isLoading : Bool) (s : ModalState)
    (h : s.variations = [] ∨ firstFile s = none ∨ s.isGenerating = true) :
    clickGenerateVariations item sug env isLoading s = s := by
  unfold clickGenerateVariations
  rcases h with h | h | h
  · have hf : firstFile s = none := by simp [firstFile, h]
    split
    · rfl
    · unfold handleGenerateVariations
      rw [hf]
      cases item <;> rfl
  · split
    · rfl
    · unfold handleGenerateVariations
      rw [h]
      cases item <;> rfl
  · simp [h]

/-- A state with a batch already in progress. -/
def wSBusy : ModalState := { wS with isGenerating := true }

/-- Witness for C4: a generate click while a batch is in progress changes
nothing. -/
theorem clickGenerate_C4_witness :
    wSBusy.isGenerating = true ∧
    clickGenerateVariations (some wIt) wSug wEnv false wSBusy = wSBusy :=
  ⟨rfl, clickGenerate_C4 (some wIt) wSug wEnv false wSBusy (Or.inr (Or.inr rfl))⟩

/-- Counterexample to claim C5 as stated: when materialization fails on a
state that already holds variants (here: a previously opened garment), the
catch block only sets the error message — the variant list is left as it was,
not empty. -/
theorem initModal_C5_counterexample :
    (initModal wIt LoadOutcome.failure wS).error
      = some "Could not load original garment image." ∧
    (initModal wIt LoadOutcome.failure wS).variations ≠ [] := by
  decide

/-- Claim C5 as amended: on success the variant list is reset to exactly one
original variant holding the payload, the selection is reset to 0 and the
error is cleared; on materialization failure the error is set to the message
"Could not load original garment image." and the variant list and selection
are left unchanged — so the list is empty only if it was already empty, as on
the first open. -/
theorem initModal_C5_amended (it : WardrobeItem) (f : FileData) (s : ModalState) :
    (initModal it (LoadOutcome.success f) s).variations =
      [{ hex := "original", url := it.url, file := some f,
         status := VariationStatus.original }] ∧
    (initModal it (LoadOutcome.success f) s).selectedVariationIndex = 0 ∧
    (initModal it (LoadOutcome.success f) s).error = none ∧
    (initModal it LoadOutcome.failure s).error
      = some "Could not load original garment image." ∧
    (initModal it LoadOutcome.failure s).variations = s.variations ∧
    (initModal it LoadOutcome.failure s).selectedVariationIndex
      = s.selectedVariationIndex :=
  ⟨rfl, rfl, rfl, rfl, rfl, rfl⟩

/-- A state holding, besides the original, a finished done variant for the
hex "#222222". -/
def c6S : ModalState :=
  { variations := [{ hex := "original", url := "u0", file := some wF,
                     status := VariationStatus.original },
                   { hex := "#222222", url := "u2", file := some { tag := "v2.png" },
                     status := VariationStatus.done }],
    selectedVariationIndex := 0, isGenerating := false, error := none }

/-- The done variant of `c6S`. -/
def c6DoneVar : Variation :=
  { hex := "#222222", url := "u2", file := some { tag := "v2.png" },
    status := VariationStatus.done }

/-- Counterexample to claim C6 as stated: the error-transition update matches
by colorKey alone, so a variant with the same colorKey that is already done —
not in status generating — is modified by it: running a batch for "#222222"
whose recolor fails turns the done variant at index 1 into an error variant. -/
theorem generateVariations_C6_counterexample :
    (c6S.variations[1]?).map Variation.status = some VariationStatus.done ∧
    (((handleGenerateVariations (some wIt)
        (SuggestOutcome.response (ParsedResponse.colors ["#222222"]))
        envFail c6S).variations[1]?).map Variation.status
      = some VariationStatus.error) := by
  decide

/-- Claim C6 as amended: the done-transition of a batch update selects
variants by colorKey together with status generating, and any update leaves
variants with a different colorKey untouched; but the error-transition
selects by colorKey alone, so every variant with the matching colorKey —
whatever its status — is set to error. -/
theorem processColor_C6_matching (s : ModalState) (hex : String) (i : Nat) (v : Variation)
    (hv : s.variations[i]? = some v) :
    (∀ (url : String) (f2 : FileData),
        ¬(v.hex = hex ∧ v.status = VariationStatus.generating) →
        (processColor s hex (ColorOutcome.success url f2)).variations[i]? = some v) ∧
    (∀ o : ColorOutcome, v.hex ≠ hex → (processColor s hex o).variations[i]? = some v) ∧
    (∀ o : ColorOutcome, o.isFailure = true → v.hex = hex →
        (processColor s hex o).variations[i]? =
          some { v with status := VariationStatus.error }) := by
  refine ⟨?_, ?_, ?_⟩
  · intro url f2 hc
    show (s.variations.map (colorUpdate hex (ColorOutcome.success url f2)))[i]? = some v
    rw [List.getElem?_map, hv]
    exact congrArg some (by simp [colorUpdate, successUpdate, hc])
  · intro o hne
    show (s.variations.map (colorUpdate hex o))[i]? = some v
    rw [List.getElem?_map, hv]
    exact congrArg some (colorUpdate_ne hex o v hne)
  · intro o hf hhex
    show (s.variations.map (colorUpdate hex o))[i]? = _
    rw [List.getElem?_map, hv]
    refine congrArg some ?_
    cases o with
    | success url f2 => simp [ColorOutcome.isFailure] at hf
    | recolorFailure => simp [colorUpdate, failureUpdate, hhex]
    | fileFailure url => simp [colorUpdate, failureUpdate, hhex]

/-- Witness for the amended C6 at the concrete done variant of `c6S`. -/
theorem processColor_C6_witness :
    c6S.variations[1]? = some c6DoneVar ∧
    ((∀ (url : String) (f2 : FileData),
        ¬(c6DoneVar.hex = "#222222" ∧ c6DoneVar.status = VariationStatus.generating) →
        (processColor c6S "#222222" (ColorOutcome.success url f2)).variations[1]?
          = some c6DoneVar) ∧
     (∀ o : ColorOutcome, c6DoneVar.hex ≠ "#222222" →
        (processColor c6S "#222222" o).variations[1]? = some c6DoneVar) ∧
     (∀ o : ColorOutcome, o.isFailure = true → c6DoneVar.hex = "#222222" →
        (processColor c6S "#222222" o).variations[1]? =
          some { c6DoneVar with status := VariationStatus.error })) :=
  ⟨rfl, processColor_C6_matching c6S "#222222" 1 c6DoneVar rfl⟩

/-- Claim C7: when the selected variant has status generating or error, or
lacks a file, `handleApply` hands nothing to the host — the callback payload
is none — and, since `handleApply` only reads the state, no controller state
changes. -/
theorem handleApply_C7_noop (item : Option WardrobeItem) (s : ModalState) (v : Variation)
    (hv : s.variations[s.selectedVariationIndex]? = some v)
    (hst : v.status = VariationStatus.generating ∨ v.status = VariationStatus.error ∨
           v.file = none) :
    handleApply item s = none := by
  unfold handleApply
  rw [hv]
  rcases hst with h | h | h
  · cases item <;> cases hfv : v.file <;> simp [h, hfv]
  · cases item <;> cases hfv : v.file <;> simp [h, hfv]
  · cases item <;> simp [h]

/-- A state whose selected variant is still generating. -/
def c7S : ModalState :=
  { variations := [appendedVariation "#111111"], selectedVariationIndex := 0,
    isGenerating := true, error := none }

/-- Witness for C7: applying while the selected variant is generating yields
no payload. -/
theorem handleApply_C7_witness :
    c7S.variations[c7S.selectedVariationIndex]? = some (appendedVariation "#111111") ∧
    handleApply (some wIt) c7S = none :=
  ⟨rfl, handleApply_C7_noop (some wIt) c7S (appendedVariation "#111111") rfl (Or.inl rfl)⟩

/-- Claim C8: for an eligible selected variant (status done or original, file
present), `handleApply` hands the host the file together with a derived
identity whose id is the base id suffixed with a dash and the colorKey — so
"-original" for the original variant — and whose name is unchanged for the
original variant and otherwise is the base name suffixed with the colorKey in
parentheses; the url is the variant preview url and every other field is
inherited. -/
theorem handleApply_C8_identity (it : WardrobeItem) (s : ModalState) (v : Variation)
    (f : FileData)
    (hv : s.variations[s.selectedVariationIndex]? = some v)
    (hf : v.file = some f)
    (hst : v.status = VariationStatus.done ∨ v.status = VariationStatus.original) :
    handleApply (some it) s = some (f,
      { it with
        id := it.id ++ "-" ++ v.hex,
        name := if v.status = VariationStatus.original then it.name
                else it.name ++ " (" ++ v.hex ++ ")",
        url := v.url }) := by
  simp only [handleApply, hv, hf]
  rw [if_pos hst]

/-- Witness for C8, at the original variant of `wS` and at a done variant:
the original yields the id suffix "-original" with the name unchanged, the
done variant yields both suffixes. -/
theorem handleApply_C8_witness :
    handleApply (some wIt) wS = some (wF,
      { id := "g1-original", name := "Shirt", url := "u0",
        description := "d", brand := "b" }) ∧
    handleApply (some wIt) { c6S with selectedVariationIndex := 1 } = some (
      { tag := "v2.png" },
      { id := "g1-#222222", name := "Shirt (#222222)", url := "u2",
        description := "d", brand := "b" }) :=
  ⟨handleApply_C8_identity wIt wS
      { hex := "original", url := "u0", file := some wF,
        status := VariationStatus.original } wF rfl rfl (Or.inr rfl),
   handleApply_C8_identity wIt { c6S with selectedVariationIndex := 1 }
      c6DoneVar { tag := "v2.png" } rfl rfl (Or.inl rfl)⟩

/-- Claim C9: whenever `getHarmonicColors` returns instead of failing, the
returned list is non-empty — it is either the parsed non-empty array itself
or the 4-element fallback palette — so callers never receive an empty color
list. -/
theorem getHarmonicColors_C9_nonempty (o : SuggestOutcome) (cs : List String)
    (h : getHarmonicColors o = Except.ok cs) :
    0 < cs.length ∧
    (o = SuggestOutcome.response (ParsedResponse.colors cs) ∨ cs = fallbackColors) := by
  cases o with
  | transportFailure => exact Except.noConfusion h
  | response p =>
      cases p with
      | unparsable =>
          have h2 : fallbackColors = cs := by
            simpa [getHarmonicColors] using h
          subst h2
          exact ⟨by decide, Or.inr rfl⟩
      | noColorsArray =>
          have h2 : fallbackColors = cs := by
            simpa [getHarmonicColors] using h
          subst h2
          exact ⟨by decide, Or.inr rfl⟩
      | colors cs0 =>
          by_cases hlen : cs0.length > 0
          · have h2 : cs0 = cs := by
              simpa [getHarmonicColors, hlen] using h
            subst h2
            exact ⟨hlen, Or.inl rfl⟩
          · have h2 : fallbackColors = cs := by
              simpa [getHarmonicColors, hlen] using h
            subst h2
            exact ⟨by decide, Or.inr rfl⟩

/-- Witness for C9 at an unparsable response: the fallback palette comes back
and is non-empty. -/
theorem getHarmonicColors_C9_witness :
    getHarmonicColors (SuggestOutcome.response ParsedResponse.unparsable)
      = Except.ok fallbackColors ∧
    (0 < fallbackColors.length ∧
     (SuggestOutcome.response ParsedResponse.unparsable
        = SuggestOutcome.response (ParsedResponse.colors fallbackColors) ∨
      fallbackColors = fallbackColors)) :=
  ⟨rfl, getHarmonicColors_C9_nonempty
          (SuggestOutcome.response ParsedResponse.unparsable) fallbackColors rfl⟩

/-- Claim C10: `handleApply` is safe for every selected index: when the index
is past the end of the variant list the optional lookup yields nothing, and
when the entry exists but has no file the guard fails — in both cases the
callback payload is none and nothing crashes. -/
theorem handleApply_C10_safe (item : Option WardrobeItem) (s : ModalState)
    (h : s.variations.length ≤ s.selectedVariationIndex ∨
         ∃ v, s.variations[s.selectedVariationIndex]? = some v ∧ v.file = none) :
    handleApply item s = none := by
  rcases h with h | ⟨v, hv, hf⟩
  · unfold handleApply
    rw [List.getElem?_eq_none h]
  · unfold handleApply
    rw [hv]
    cases item <;> simp [hf]

/-- A state whose selected index lies past the end of the variant list. -/
def c10S : ModalState :=
  { variations := [{ hex := "original", url := "u0", file := some wF,
                     status := VariationStatus.original }],
    selectedVariationIndex := 5, isGenerating := false, error := none }

/-- Witness for C10: with one variant and index 5 the apply payload is none. -/
theorem handleApply_C10_witness :
    c10S.variations.length ≤ c10S.selectedVariationIndex ∧
    handleApply (some wIt) c10S = none :=
  ⟨by decide, handleApply_C10_safe (some wIt) c10S (Or.inl (by decide))⟩
